import Mathlib

/-!
# Verification of the rust-mongo-driver core against its specification

Shallow embedding of the driver's ObjectId generation (`src/client/oid.rs`),
write-concern serialisation (`src/common.rs`), database-level commands
(`src/client/db.rs`) and server error codes (`src/error.rs`), together with
theorems settling the specification's claims about them.

Machine integers are modelled as `Nat` with explicit `% 2^w` where the Rust
code truncates or wraps; byte arrays are `List Nat` whose entries are byte
values; fallible Rust functions returning `Result<T>` are modelled with
`Except`.  Process-global mutable state (the atomic ObjectId counter, the
cached machine-id bytes) is passed explicitly; OS and external-crate
collaborators (`gethostname`, the MD5 digest, the random seed) are parameters
of the embedding.
-/

namespace Mongo

/-! ## Byte-order helpers (mirroring the byteorder crate)

`be32 n` is `BigEndian::write_u32`, `be64 n` is `BigEndian::write_u64`,
`le16 n` is `LittleEndian::write_u16`; the read direction mirrors
`read_u32`/`read_u16` on a byte slice. -/

def be32 (n : Nat) : List Nat :=
  [n / 16777216 % 256, n / 65536 % 256, n / 256 % 256, n % 256]

def be64 (n : Nat) : List Nat :=
  [n / 2 ^ 56 % 256, n / 2 ^ 48 % 256, n / 2 ^ 40 % 256, n / 2 ^ 32 % 256,
   n / 16777216 % 256, n / 65536 % 256, n / 256 % 256, n % 256]

def le16 (n : Nat) : List Nat :=
  [n % 256, n / 256 % 256]

def readBE32 (l : List Nat) : Nat :=
  l.getD 0 0 * 16777216 + l.getD 1 0 * 65536 + l.getD 2 0 * 256 + l.getD 3 0

def readLE16 (l : List Nat) : Nat :=
  l.getD 0 0 + l.getD 1 0 * 256

/-- The 3-byte big-endian encoding of a 24-bit value.  This is the encoding
the specification ascribes to the ObjectId counter field ("3-byte counter,
big-endian"); it is used to state claims about `gen_count`. -/
def be24 (n : Nat) : List Nat :=
  [n / 65536 % 256, n / 256 % 256, n % 256]

/-! ## ObjectId generation (`src/client/oid.rs`) -/

def TIMESTAMP_SIZE : Nat := 4
def MACHINE_ID_SIZE : Nat := 3
def PROCESS_ID_SIZE : Nat := 2
def COUNTER_SIZE : Nat := 3

def TIMESTAMP_OFFSET : Nat := 0
def MACHINE_ID_OFFSET : Nat := TIMESTAMP_OFFSET + TIMESTAMP_SIZE
def PROCESS_ID_OFFSET : Nat := MACHINE_ID_OFFSET + MACHINE_ID_SIZE
def COUNTER_OFFSET : Nat := PROCESS_ID_OFFSET + PROCESS_ID_SIZE

def MAX_U24 : Nat := 0xFFFFFF

/-- Rust `gen_timestamp`: the current seconds-since-epoch, truncated `as u32` and
written big-endian.  The wall clock (`time::get_time().sec`) is the `sec`
parameter. -/
def gen_timestamp (sec : Nat) : List Nat :=
  be32 (sec % 2 ^ 32)

/-- Rust `gen_pid`: the process id truncated `as u16`, written little-endian.
The OS process id (`libc::getpid()`) is the `pid` parameter. -/
def gen_pid (pid : Nat) : List Nat :=
  le16 (pid % 2 ^ 16)

/-- The `for i in 0..MACHINE_ID_SIZE { match bytes.next() ... }` loop of
`gen_machine_id`: the first three bytes of `l`, missing positions left `0`. -/
def firstThree (l : List Nat) : List Nat :=
  [l.getD 0 0, l.getD 1 0, l.getD 2 0]

/-- Rust `gen_machine_id`: returns the cached `MACHINE_BYTES` when any of its three
bytes is non-zero; otherwise hashes the hostname with MD5, takes the first
three bytes of the hex digest string, and caches them.

The OS hostname lookup (`gethostname` plus NUL-scanning) is abstracted into
the `hostname` parameter (its failure branch returns `DefaultError` and
produces no ObjectId, so it does not affect generated ObjectIds); the external
rust-crypto MD5 is abstracted into `md5hex`, which maps a string to the bytes
of `Md5::result_str()`, i.e. the ASCII bytes of the 32-character lowercase hex
digest.  Returns the machine-id bytes together with the new cache contents. -/
def gen_machine_id (md5hex : String → List Nat) (hostname : String)
    (cache : List Nat) : List Nat × List Nat :=
  if cache.getD 0 0 != 0 || cache.getD 1 0 != 0 || cache.getD 2 0 != 0 then
    (cache, cache)
  else
    let hash := md5hex hostname
    let vec := firstThree hash
    (vec, vec)

/-- Rust `gen_count`: when the atomic counter reads `0` it is seeded with
`rng.gen_range(0, MAX_U24 + 1)` (the `start` parameter, a value `< 2^24`);
`fetch_add(1)` then yields the pre-increment value `u_counter` and leaves the
counter at `u_counter + 1` (wrapping at the `usize` width `2^64`).  The code
computes `u = u_counter % MAX_U24`, writes `u` as a big-endian `u64` into an
8-byte buffer and returns the buffer's FIRST three bytes.  Returns the 3-byte
counter field together with the new counter value. -/
def gen_count (start c : Nat) : List Nat × Nat :=
  let c0 := if c = 0 then start else c
  let u_counter := c0
  let next := (u_counter + 1) % 2 ^ 64
  let u := u_counter % MAX_U24
  let u_int := u
  let buf := be64 u_int
  ([buf.getD 0 0, buf.getD 1 0, buf.getD 2 0], next)

/-- The process-wide mutable state read and written by `generate`: the
`OID_COUNTER` atomic and the `MACHINE_BYTES` cache. -/
structure OidState where
  counter : Nat
  machine : List Nat
deriving DecidableEq

/-- Rust `generate`: builds the 12-byte ObjectId by writing the timestamp bytes at
offset 0, the machine-id bytes at offset 4, the process-id bytes at offset 7
and the counter bytes at offset 9 (each `gen_*` result has exactly the
corresponding `*_SIZE` length, so the offset-indexed copy loops amount to
concatenation).  Returns the ObjectId and the updated process state. -/
def generate (md5hex : String → List Nat) (sec : Nat) (hostname : String)
    (pid : Nat) (start : Nat) (s : OidState) : List Nat × OidState :=
  let timestamp := gen_timestamp sec
  let mres := gen_machine_id md5hex hostname s.machine
  let machine_id := mres.1
  let process_id := gen_pid pid
  let cres := gen_count start s.counter
  let counter := cres.1
  (timestamp ++ machine_id ++ process_id ++ counter, ⟨cres.2, mres.2⟩)

/-- Rust `with_timestamp`: a dummy ObjectId holding only a big-endian generation
time. -/
def with_timestamp (time : Nat) : List Nat :=
  be32 (time % 2 ^ 32) ++ [0, 0, 0, 0, 0, 0, 0, 0]

/-- Rust `get_timestamp`: `BigEndian::read_u32` on the first four bytes. -/
def get_timestamp (oid : List Nat) : Nat :=
  readBE32 oid

/-- Rust `get_machine_id`: the three machine-id bytes copied into the low bytes of
a 4-byte buffer and read little-endian. -/
def get_machine_id (oid : List Nat) : Nat :=
  oid.getD MACHINE_ID_OFFSET 0 + oid.getD (MACHINE_ID_OFFSET + 1) 0 * 256 +
    oid.getD (MACHINE_ID_OFFSET + 2) 0 * 65536

/-- Rust `get_pid`: `LittleEndian::read_u16` on the slice starting at offset 7. -/
def get_pid (oid : List Nat) : Nat :=
  readLE16 (oid.drop PROCESS_ID_OFFSET)

/-- Rust `get_counter`: the three counter bytes copied into positions 1..3 of a
zeroed 4-byte buffer and read as a big-endian `u32`. -/
def get_counter (oid : List Nat) : Nat :=
  readBE32 ([0] ++ (oid.drop COUNTER_OFFSET).take 3)

/-! ## Hexadecimal decoding (rustc-serialize `FromHex`, used by `with_string`)

`with_string` delegates to `str::from_hex` from the rustc-serialize crate, so
that decoder is embedded as well.  The input string is modelled by its UTF-8
byte sequence (`s.bytes()` is what the decoder iterates). -/

inductive FromHexError where
  /-- Rust `InvalidHexCharacter(chr, idx)` — modelled by the offending byte and
  its index. -/
  | InvalidHexCharacter (byte idx : Nat)
  | InvalidHexLength
deriving DecidableEq

/-- The byte loop of rustc-serialize's `from_hex`: `buf` is the `u8`
accumulator (`buf <<= 4` wraps at 256), `modulus` counts nibbles within the
current byte, `idx` the byte index, `acc` the output vector (reversed). -/
def from_hex_loop : List Nat → Nat → Nat → Nat → List Nat →
    Except FromHexError (List Nat)
  | [], _, modulus, _, acc =>
    if modulus = 0 then .ok acc.reverse else .error .InvalidHexLength
  | byte :: rest, buf, modulus, idx, acc =>
    let buf1 := buf * 16 % 256
    if 65 ≤ byte && byte ≤ 70 then
      let buf2 := buf1 ||| (byte - 65 + 10)
      if modulus + 1 = 2 then
        from_hex_loop rest buf2 0 (idx + 1) (buf2 :: acc)
      else
        from_hex_loop rest buf2 (modulus + 1) (idx + 1) acc
    else if 97 ≤ byte && byte ≤ 102 then
      let buf2 := buf1 ||| (byte - 97 + 10)
      if modulus + 1 = 2 then
        from_hex_loop rest buf2 0 (idx + 1) (buf2 :: acc)
      else
        from_hex_loop rest buf2 (modulus + 1) (idx + 1) acc
    else if 48 ≤ byte && byte ≤ 57 then
      let buf2 := buf1 ||| (byte - 48)
      if modulus + 1 = 2 then
        from_hex_loop rest buf2 0 (idx + 1) (buf2 :: acc)
      else
        from_hex_loop rest buf2 (modulus + 1) (idx + 1) acc
    else if byte = 32 || byte = 13 || byte = 10 || byte = 9 then
      from_hex_loop rest (buf1 / 16) modulus (idx + 1) acc
    else
      .error (.InvalidHexCharacter byte idx)

/-- rustc-serialize `str::from_hex`. -/
def from_hex (s : List Nat) : Except FromHexError (List Nat) :=
  from_hex_loop s 0 0 0 []

/-- The digit table `"0123456789abcdef"` of rustc-serialize `ToHex`, as ASCII
byte values. -/
def hexDigitByte (d : Nat) : Nat :=
  if d < 10 then 48 + d else 87 + d

/-- rustc-serialize `to_hex`: two lowercase hex characters per byte, high
nibble first.  This is the `formatHex` of the specification's round-trip
property (the driver displays ObjectIds through this encoder). -/
def to_hex (bytes : List Nat) : List Nat :=
  (bytes.map (fun b => [hexDigitByte (b % 256 / 16), hexDigitByte (b % 16)])).flatten

/-! ## The driver error type (`src/error.rs`)

Only the variants reachable from the embedded operations are modelled; the
omitted variants (`IoError`, `EncoderError`, `DecoderError`, `OIDError`,
`WriteError`, `BulkWriteError`, `ResponseError`, `CursorNotFoundError`,
`PoisonLockError`, `CodedError`, `EventListenerError`,
`MaliciousServerError`) carry payload types from external collaborators and
never arise in the functions under verification. -/

inductive Error where
  /-- A hexadecimal string could not be converted to bytes. -/
  | FromHexError (e : FromHexError)
  /-- An invalid function or operational argument was provided. -/
  | ArgumentError (msg : String)
  /-- A database operation failed to send or receive a reply. -/
  | OperationError (msg : String)
  /-- A standard error with a string description. -/
  | DefaultError (msg : String)
deriving DecidableEq

/-- Rust `with_string`: decodes a hexadecimal string (`try!(s.from_hex())`, the
hex failure lifted into `Error::FromHexError` by the `From` impl); a decode of
any length other than 12 is an `ArgumentError`, and otherwise the 12 decoded
bytes are the ObjectId. -/
def with_string (s : List Nat) : Except Error (List Nat) :=
  match from_hex s with
  | .error e => .error (.FromHexError e)
  | .ok bytes =>
    if bytes.length ≠ 12 then
      .error (.ArgumentError "Provided string must be a 12-byte hexadecimal string.")
    else
      .ok bytes

/-! ## BSON documents (the external bson crate, at its interface)

Only the `Bson` constructors the embedded operations build or inspect are
modelled (`I32`, `Boolean`, `String`, `Document`).  A `Document` is an
insertion-ordered association list; `insert` updates an existing key in place
and otherwise appends (every embedded operation inserts distinct keys, so the
update branch is never exercised), and `get` finds the entry for a key. -/

inductive Bson where
  | I32 (v : Int)
  | Boolean (b : Bool)
  | Str (s : String)
  | Doc (d : List (String × Bson))

abbrev BsonDocument := List (String × Bson)

def BsonDocument.new : BsonDocument := []

def BsonDocument.insert (d : BsonDocument) (key : String) (val : Bson) :
    BsonDocument :=
  if d.any (fun p => p.1 == key) then
    d.map (fun p => if p.1 == key then (key, val) else p)
  else
    d ++ [(key, val)]

def BsonDocument.get (d : BsonDocument) (key : String) : Option Bson :=
  (d.find? (fun p => p.1 == key)).map (fun p => p.2)

/-! ## WriteConcern (`src/common.rs`) -/

structure WriteConcern where
  /-- Write replication. -/
  w : Int
  /-- Used in conjunction with `w`; propagation timeout in ms. -/
  w_timeout : Int
  /-- If true, will block until write operations have been committed to
  journal. -/
  j : Bool
  /-- If true and server is not journaling, blocks until server has synced
  all data files to disk. -/
  fsync : Bool
deriving DecidableEq

/-- Rust `WriteConcern::new`. -/
def WriteConcern.new : WriteConcern :=
  { w := 1, w_timeout := 0, j := false, fsync := false }

/-- Rust `WriteConcern::to_bson`: inserts `w`, `wtimeout` and `j` into a fresh
document (the source inserts no other key). -/
def WriteConcern.to_bson (wc : WriteConcern) : BsonDocument :=
  let bson := BsonDocument.new
  let bson := bson.insert "w" (.I32 wc.w)
  let bson := bson.insert "wtimeout" (.I32 wc.w_timeout)
  let bson := bson.insert "j" (.Boolean wc.j)
  bson

/-! ## Database operations (`src/client/db.rs`)

The server behind `Collection::find_one` on the virtual `$cmd` collection is
abstracted as `exec : BsonDocument → Except Error (Option BsonDocument)`,
mapping the command document the database sends to the server's reply.  The
`Cursor` type (`src/client/cursor.rs` is not part of the sources) is treated
at its interface: a command-cursor operation is characterised by the command
document handed to `Cursor::command_cursor`, and iteration of an open cursor
by the finite sequence of `Result<Document>` items that `next()` yields. -/

/-- The observable outcome of a database method: either a returned `Result`,
or a panic (which aborts without producing any `Result`). -/
inductive DbOutcome (α : Type) where
  | panicked
  | returned (r : Except Error α)

/-- Rust `Database::command`: sends the spec document over `find_one` against
`$cmd` and unwraps the optional reply, a missing reply becoming an
`OperationError` (whose message interpolates the spec with `{:?}`; the
formatted text is abstracted to a fixed prefix). -/
def Database.command (exec : BsonDocument → Except Error (Option BsonDocument))
    (spec : BsonDocument) : Except Error BsonDocument :=
  match exec spec with
  | .error e => .error e
  | .ok (some doc) => .ok doc
  | .ok none => .error (.OperationError "Failed to execute command with spec")

/-- Rust `Database::list_collections_with_batch_size`: the command document handed
to `Cursor::command_cursor`. -/
def Database.list_collections_with_batch_size (filter : Option BsonDocument)
    (batch_size : Int) : BsonDocument :=
  let spec := BsonDocument.new
  let cursor := BsonDocument.new
  let cursor := cursor.insert "batchSize" (.I32 batch_size)
  let spec := spec.insert "listCollections" (.I32 1)
  let spec := spec.insert "cursor" (.Doc cursor)
  let spec :=
    match filter with
    | some f => spec.insert "filter" (.Doc f)
    | none => spec
  spec

/-- Rust `Database::list_collections`.  Modelled from the spec: the constant
`DEFAULT_BATCH_SIZE` is declared in `client/cursor.rs`, which is absent from
the sources, and the specification fixes no numeric value for it, so the
default batch size is the `DEFAULT_BATCH_SIZE` parameter here. -/
def Database.list_collections (DEFAULT_BATCH_SIZE : Int)
    (filter : Option BsonDocument) : BsonDocument :=
  Database.list_collections_with_batch_size filter DEFAULT_BATCH_SIZE

/-- Rust `Database::collection_names`: drains the `listCollections` cursor,
keeping the string value of each yielded document's `name` field, returning
the first iteration error unchanged.  The cursor's yields are the `items`
parameter (`None` from `next()` is the end of the list). -/
def Database.collection_names (items : List (Except Error BsonDocument)) :
    Except Error (List String) :=
  match items with
  | [] => .ok []
  | .error err :: _ => .error err
  | .ok doc :: rest =>
    match doc.get "name" with
    | some (.Str name) =>
      match Database.collection_names rest with
      | .ok results => .ok (name :: results)
      | .error err => .error err
    | _ => Database.collection_names rest

/-- The `name`-field extraction of a single `listCollections` document, used
to state what `collection_names` keeps. -/
def nameField (doc : BsonDocument) : Option String :=
  match doc.get "name" with
  | some (.Str name) => some name
  | _ => none

/-- Rust `Database::create_collection`: the body is `unimplemented!()`, so the
call panics; no command document is built or sent.  The second component
lists the command documents the method hands to the server (compare
`drop_collection`). -/
def Database.create_collection (_name : String) :
    DbOutcome Unit × List BsonDocument :=
  (.panicked, [])

/-- Rust `Database::drop_database`: sends `{ dropDatabase: 1 }` and discards the
reply. -/
def Database.drop_database
    (exec : BsonDocument → Except Error (Option BsonDocument)) :
    DbOutcome Unit × List BsonDocument :=
  let spec := BsonDocument.new.insert "dropDatabase" (.I32 1)
  match Database.command exec spec with
  | .error e => (.returned (.error e), [spec])
  | .ok _ => (.returned (.ok ()), [spec])

/-- Rust `Database::drop_collection`: sends `{ drop: <name> }` and discards the
reply. -/
def Database.drop_collection
    (exec : BsonDocument → Except Error (Option BsonDocument)) (name : String) :
    DbOutcome Unit × List BsonDocument :=
  let spec := BsonDocument.new.insert "drop" (.Str name)
  match Database.command exec spec with
  | .error e => (.returned (.error e), [spec])
  | .ok _ => (.returned (.ok ()), [spec])

/-! ## Server error codes (`src/error.rs`) -/

inductive ErrorCode where
  | OK
  | InternalError
  | BadValue
  | OBSOLETE_DuplicateKey
  | NoSuchKey
  | GraphContainsCycle
  | HostUnreachable
  | HostNotFound
  | UnknownError
  | FailedToParse
  | CannotMutateObject
  | UserNotFound
  | UnsupportedFormat
  | Unauthorized
  | TypeMismatch
  | Overflow
  | InvalidLength
  | ProtocolError
  | AuthenticationFailed
  | CannotReuseObject
  | IllegalOperation
  | EmptyArrayOperation
  | InvalidBSON
  | AlreadyInitialized
  | LockTimeout
  | RemoteValidationError
  | NamespaceNotFound
  | IndexNotFound
  | PathNotViable
  | NonExistentPath
  | InvalidPath
  | RoleNotFound
  | RolesNotRelated
  | PrivilegeNotFound
  | CannotBackfillArray
  | UserModificationFailed
  | RemoteChangeDetected
  | FileRenameFailed
  | FileNotOpen
  | FileStreamFailed
  | ConflictingUpdateOperators
  | FileAlreadyOpen
  | LogWriteFailed
  | CursorNotFound
  | UserDataInconsistent
  | LockBusy
  | NoMatchingDocument
  | NamespaceExists
  | InvalidRoleModification
  | ExceededTimeLimit
  | ManualInterventionRequired
  | DollarPrefixedFieldName
  | InvalidIdField
  | NotSingleValueField
  | InvalidDBRef
  | EmptyFieldName
  | DottedFieldName
  | RoleModificationFailed
  | CommandNotFound
  | DatabaseNotFound
  | ShardKeyNotFound
  | OplogOperationUnsupported
  | StaleShardVersion
  | WriteConcernFailed
  | MultipleErrorsOccurred
  | ImmutableField
  | CannotCreateIndex
  | IndexAlreadyExists
  | AuthSchemaIncompatible
  | ShardNotFound
  | ReplicaSetNotFound
  | InvalidOptions
  | InvalidNamespace
  | NodeNotFound
  | WriteConcernLegacyOK
  | NoReplicationEnabled
  | OperationIncomplete
  | CommandResultSchemaViolation
  | UnknownReplWriteConcern
  | RoleDataInconsistent
  | NoWhereParseContext
  | NoProgressMade
  | RemoteResultsUnavailable
  | DuplicateKeyValue
  | IndexOptionsConflict
  | IndexKeySpecsConflict
  | CannotSplit
  | SplitFailed
  | NetworkTimeout
  | CallbackCanceled
  | ShutdownInProgress
  | SecondaryAheadOfPrimary
  | InvalidReplicaSetConfig
  | NotYetInitialized
  | NotSecondary
  | OperationFailed
  | NoProjectionFound
  | DBPathInUse
  | WriteConcernNotDefined
  | CannotSatisfyWriteConcern
  | OutdatedClient
  | IncompatibleAuditMetadata
  | NewReplicaSetConfigurationIncompatible
  | NodeNotElectable
  | IncompatibleShardingMetadata
  | DistributedClockSkewed
  | LockFailed
  | InconsistentReplicaSetNames
  | ConfigurationInProgress
  | CannotInitializeNodeWithData
  | NotExactValueField
  | WriteConflict
  | InitialSyncFailure
  | InitialSyncOplogSourceMissing
  | CommandNotSupported
  | DocTooLargeForCapped
  | ConflictingOperationInProgress
  | NamespaceNotSharded
  | InvalidSyncSource
  | OplogStartMissing
  | DocumentValidationFailure
  | OBSOLETE_ReadAfterOptimeTimeout
  | NotAReplicaSet
  | IncompatibleElectionProtocol
  | CommandFailed
  | RPCProtocolNegotiationFailed
  | UnrecoverableRollbackError
  | LockNotFound
  | LockStateChangeFailed
  | SymbolNotFound
  | RLPInitializationFailed
  | ConfigServersInconsistent
  | FailedToSatisfyReadPreference
  | XXX_TEMP_NAME_ReadCommittedCurrentlyUnavailable
  | StaleTerm
  | CappedPositionLost
  | IncompatibleShardingConfigVersion
  | RemoteOplogStale
  | JSInterpreterFailure
  | NotMaster
  | DuplicateKey
  | InterruptedAtShutdown
  | Interrupted
  | BackgroundOperationInProgressForDatabase
  | BackgroundOperationInProgressForNamespace
  | PrepareConfigsFailedCode
  | DatabaseDifferCase
  | ShardKeyTooBig
  | SendStaleConfig
  | NotMasterNoSlaveOkCode
  | NotMasterOrSecondaryCode
  | OutOfDiskSpace
  | KeyTooLong
  | MaxError
deriving DecidableEq, Fintype

/-- The numeric discriminant of each `ErrorCode` variant (`MaxError`, which
has no explicit discriminant, follows `KeyTooLong = 17280`). -/
def ErrorCode.code : ErrorCode → Nat
  | .OK => 0
  | .InternalError => 1
  | .BadValue => 2
  | .OBSOLETE_DuplicateKey => 3
  | .NoSuchKey => 4
  | .GraphContainsCycle => 5
  | .HostUnreachable => 6
  | .HostNotFound => 7
  | .UnknownError => 8
  | .FailedToParse => 9
  | .CannotMutateObject => 10
  | .UserNotFound => 11
  | .UnsupportedFormat => 12
  | .Unauthorized => 13
  | .TypeMismatch => 14
  | .Overflow => 15
  | .InvalidLength => 16
  | .ProtocolError => 17
  | .AuthenticationFailed => 18
  | .CannotReuseObject => 19
  | .IllegalOperation => 20
  | .EmptyArrayOperation => 21
  | .InvalidBSON => 22
  | .AlreadyInitialized => 23
  | .LockTimeout => 24
  | .RemoteValidationError => 25
  | .NamespaceNotFound => 26
  | .IndexNotFound => 27
  | .PathNotViable => 28
  | .NonExistentPath => 29
  | .InvalidPath => 30
  | .RoleNotFound => 31
  | .RolesNotRelated => 32
  | .PrivilegeNotFound => 33
  | .CannotBackfillArray => 34
  | .UserModificationFailed => 35
  | .RemoteChangeDetected => 36
  | .FileRenameFailed => 37
  | .FileNotOpen => 38
  | .FileStreamFailed => 39
  | .ConflictingUpdateOperators => 40
  | .FileAlreadyOpen => 41
  | .LogWriteFailed => 42
  | .CursorNotFound => 43
  | .UserDataInconsistent => 45
  | .LockBusy => 46
  | .NoMatchingDocument => 47
  | .NamespaceExists => 48
  | .InvalidRoleModification => 49
  | .ExceededTimeLimit => 50
  | .ManualInterventionRequired => 51
  | .DollarPrefixedFieldName => 52
  | .InvalidIdField => 53
  | .NotSingleValueField => 54
  | .InvalidDBRef => 55
  | .EmptyFieldName => 56
  | .DottedFieldName => 57
  | .RoleModificationFailed => 58
  | .CommandNotFound => 59
  | .DatabaseNotFound => 60
  | .ShardKeyNotFound => 61
  | .OplogOperationUnsupported => 62
  | .StaleShardVersion => 63
  | .WriteConcernFailed => 64
  | .MultipleErrorsOccurred => 65
  | .ImmutableField => 66
  | .CannotCreateIndex => 67
  | .IndexAlreadyExists => 68
  | .AuthSchemaIncompatible => 69
  | .ShardNotFound => 70
  | .ReplicaSetNotFound => 71
  | .InvalidOptions => 72
  | .InvalidNamespace => 73
  | .NodeNotFound => 74
  | .WriteConcernLegacyOK => 75
  | .NoReplicationEnabled => 76
  | .OperationIncomplete => 77
  | .CommandResultSchemaViolation => 78
  | .UnknownReplWriteConcern => 79
  | .RoleDataInconsistent => 80
  | .NoWhereParseContext => 81
  | .NoProgressMade => 82
  | .RemoteResultsUnavailable => 83
  | .DuplicateKeyValue => 84
  | .IndexOptionsConflict => 85
  | .IndexKeySpecsConflict => 86
  | .CannotSplit => 87
  | .SplitFailed => 88
  | .NetworkTimeout => 89
  | .CallbackCanceled => 90
  | .ShutdownInProgress => 91
  | .SecondaryAheadOfPrimary => 92
  | .InvalidReplicaSetConfig => 93
  | .NotYetInitialized => 94
  | .NotSecondary => 95
  | .OperationFailed => 96
  | .NoProjectionFound => 97
  | .DBPathInUse => 98
  | .WriteConcernNotDefined => 99
  | .CannotSatisfyWriteConcern => 100
  | .OutdatedClient => 101
  | .IncompatibleAuditMetadata => 102
  | .NewReplicaSetConfigurationIncompatible => 103
  | .NodeNotElectable => 104
  | .IncompatibleShardingMetadata => 105
  | .DistributedClockSkewed => 106
  | .LockFailed => 107
  | .InconsistentReplicaSetNames => 108
  | .ConfigurationInProgress => 109
  | .CannotInitializeNodeWithData => 110
  | .NotExactValueField => 111
  | .WriteConflict => 112
  | .InitialSyncFailure => 113
  | .InitialSyncOplogSourceMissing => 114
  | .CommandNotSupported => 115
  | .DocTooLargeForCapped => 116
  | .ConflictingOperationInProgress => 117
  | .NamespaceNotSharded => 118
  | .InvalidSyncSource => 119
  | .OplogStartMissing => 120
  | .DocumentValidationFailure => 121
  | .OBSOLETE_ReadAfterOptimeTimeout => 122
  | .NotAReplicaSet => 123
  | .IncompatibleElectionProtocol => 124
  | .CommandFailed => 125
  | .RPCProtocolNegotiationFailed => 126
  | .UnrecoverableRollbackError => 127
  | .LockNotFound => 128
  | .LockStateChangeFailed => 129
  | .SymbolNotFound => 130
  | .RLPInitializationFailed => 131
  | .ConfigServersInconsistent => 132
  | .FailedToSatisfyReadPreference => 133
  | .XXX_TEMP_NAME_ReadCommittedCurrentlyUnavailable => 134
  | .StaleTerm => 135
  | .CappedPositionLost => 136
  | .IncompatibleShardingConfigVersion => 137
  | .RemoteOplogStale => 138
  | .JSInterpreterFailure => 139
  | .NotMaster => 10107
  | .DuplicateKey => 11000
  | .InterruptedAtShutdown => 11600
  | .Interrupted => 11601
  | .BackgroundOperationInProgressForDatabase => 12586
  | .BackgroundOperationInProgressForNamespace => 12587
  | .PrepareConfigsFailedCode => 13104
  | .DatabaseDifferCase => 13297
  | .ShardKeyTooBig => 13334
  | .SendStaleConfig => 13388
  | .NotMasterNoSlaveOkCode => 13435
  | .NotMasterOrSecondaryCode => 13436
  | .OutOfDiskSpace => 14031
  | .KeyTooLong => 17280
  | .MaxError => 17281

/-- Rust `ErrorCode::is_network_error`. -/
def ErrorCode.is_network_error (c : ErrorCode) : Bool :=
  c == ErrorCode.HostUnreachable ||
  c == ErrorCode.HostNotFound ||
  c == ErrorCode.NetworkTimeout

/-- Rust `ErrorCode::is_interruption`. -/
def ErrorCode.is_interruption (c : ErrorCode) : Bool :=
  c == ErrorCode.Interrupted ||
  c == ErrorCode.InterruptedAtShutdown ||
  c == ErrorCode.ExceededTimeLimit

/-- Rust `ErrorCode::is_index_creation_error`. -/
def ErrorCode.is_index_creation_error (c : ErrorCode) : Bool :=
  c == ErrorCode.CannotCreateIndex ||
  c == ErrorCode.IndexOptionsConflict ||
  c == ErrorCode.IndexKeySpecsConflict ||
  c == ErrorCode.IndexAlreadyExists

/-! ## Theorems -/

/-- A concrete stand-in digest function for evaluating `generate` at specific
inputs: every hostname hashes to 32 ASCII `a` bytes. -/
def md5hex_stub : String → List Nat :=
  fun _ => List.replicate 32 97

/-- C1 (code bug): the 3-byte counter field `gen_count` produces is always
`[0, 0, 0]` — the code writes `u_counter % MAX_U24` (a value below `2^24`)
into an 8-byte big-endian buffer and keeps the buffer's three MOST significant
bytes, which are zero.  At the pre-increment counter value `1122867 = 0x112233`
(the input of the repository's own `count_is_big_endian` test, which expects
bytes `0x11 0x22 0x33`) the field is `[0, 0, 0]`, not the claimed
`1122867 % 2^24` in big-endian.  (The modulus is also `MAX_U24 = 2^24 - 1`,
not `2^24`, though at this input both agree.) -/
theorem gen_count_counter_field_always_zero :
    (∀ start c : Nat, (gen_count start c).1 = [0, 0, 0]) ∧
    (gen_count 0 1122867).1 = [0, 0, 0] ∧
    be24 (1122867 % 2 ^ 24) = [17, 34, 51] ∧
    (gen_count 0 1122867).1 ≠ be24 (1122867 % 2 ^ 24) := by
  have key : ∀ start c : Nat, (gen_count start c).1 = [0, 0, 0] := by
    intro start c
    simp only [gen_count, be64, MAX_U24, List.getD]
    norm_num
    omega
  refine ⟨key, key 0 1122867, by decide, ?_⟩
  rw [key]
  decide

/-- C2 (code bug): the counter fields of two ObjectIds generated one after
the other in the same process are EQUAL (both read back as `0` through
`get_counter`), because `gen_count` always emits `[0, 0, 0]`; the claim that
successive generations differ in the counter field fails, here evaluated from
the post-seed counter state `1122867`. -/
theorem successive_counter_fields_equal :
    get_counter
        (generate md5hex_stub 5 "host" 7 0 ⟨1122867, [0, 0, 0]⟩).1 = 0 ∧
    get_counter
        (generate md5hex_stub 5 "host" 7 0
          (generate md5hex_stub 5 "host" 7 0 ⟨1122867, [0, 0, 0]⟩).2).1 = 0 ∧
    get_counter
        (generate md5hex_stub 5 "host" 7 0 ⟨1122867, [0, 0, 0]⟩).1 =
      get_counter
        (generate md5hex_stub 5 "host" 7 0
          (generate md5hex_stub 5 "host" 7 0 ⟨1122867, [0, 0, 0]⟩).2).1 := by
  refine ⟨rfl, rfl, rfl⟩

/-- C3 (code bug): the accessors recover the claimed layout — on an ObjectId
laid out as 4-byte big-endian timestamp, machine id, 2-byte little-endian
pid, 3-byte big-endian counter, `get_timestamp`/`get_pid`/`get_counter`
return exactly those field values — and a generated ObjectId carries the
timestamp, machine-id and pid bytes at the claimed offsets; but its bytes
9–11 are `[0, 0, 0]` rather than the big-endian counter, so the generated
layout breaks the claim at the counter field (timestamp `0x12345678`, pid
`0xABCD`, counter state `0x112233`). -/
theorem oid_layout_counter_divergence :
    (∀ ts m0 m1 m2 pid ctr : Nat,
      get_timestamp (be32 ts ++ [m0, m1, m2] ++ le16 pid ++ be24 ctr) =
          ts % 2 ^ 32 ∧
      get_pid (be32 ts ++ [m0, m1, m2] ++ le16 pid ++ be24 ctr) =
          pid % 2 ^ 16 ∧
      get_counter (be32 ts ++ [m0, m1, m2] ++ le16 pid ++ be24 ctr) =
          ctr % 2 ^ 24) ∧
    (generate md5hex_stub 305419896 "host" 43981 0 ⟨1122867, [0, 0, 0]⟩).1 =
        [18, 52, 86, 120, 97, 97, 97, 205, 171, 0, 0, 0] ∧
    ((generate md5hex_stub 305419896 "host" 43981 0 ⟨1122867, [0, 0, 0]⟩).1.drop
        9 ≠ be24 (1122867 % 2 ^ 24)) := by
  refine ⟨?_, rfl, by decide⟩
  intro ts m0 m1 m2 pid ctr
  refine ⟨?_, ?_, ?_⟩ <;>
    · simp [be32, le16, be24, get_timestamp, get_pid, get_counter, readBE32,
        readLE16, PROCESS_ID_OFFSET, MACHINE_ID_OFFSET, TIMESTAMP_OFFSET,
        TIMESTAMP_SIZE, MACHINE_ID_SIZE, COUNTER_OFFSET, PROCESS_ID_SIZE]
      omega

/-- C4: the machine-id field of a generated ObjectId is the first three bytes
of the MD5 hex digest of the hostname, computed once per process: from a
fresh (all-zero) cache the first generation computes and caches those bytes,
and every later generation returns the cached bytes unchanged.  The
hypotheses state what rust-crypto guarantees of `Md5::result_str()`: the
digest string has at least three bytes and its bytes are non-zero (they are
ASCII hex characters). -/
theorem machine_id_md5_cached
    (md5hex : String → List Nat) (hostname : String)
    (hlen : 3 ≤ (md5hex hostname).length)
    (hnz : ∀ b ∈ md5hex hostname, b ≠ 0) :
    (gen_machine_id md5hex hostname [0, 0, 0]).1 =
        firstThree (md5hex hostname) ∧
    (gen_machine_id md5hex hostname [0, 0, 0]).2 =
        firstThree (md5hex hostname) ∧
    gen_machine_id md5hex hostname
        (gen_machine_id md5hex hostname [0, 0, 0]).2 =
      ((gen_machine_id md5hex hostname [0, 0, 0]).1,
        (gen_machine_id md5hex hostname [0, 0, 0]).2) ∧
    (∀ sec pid start c : Nat,
      ((generate md5hex sec hostname pid start ⟨c, [0, 0, 0]⟩).1.drop 4).take 3 =
        firstThree (md5hex hostname)) := by
  have hfresh : gen_machine_id md5hex hostname [0, 0, 0] =
      (firstThree (md5hex hostname), firstThree (md5hex hostname)) := rfl
  have h0 : (md5hex hostname).getD 0 0 ≠ 0 := by
    cases hl : md5hex hostname with
    | nil => rw [hl] at hlen; simp at hlen
    | cons a l =>
      have : a ∈ md5hex hostname := by rw [hl]; exact List.mem_cons_self a l
      simpa using hnz a this
  have hcond : ((firstThree (md5hex hostname)).getD 0 0 != 0 ||
      (firstThree (md5hex hostname)).getD 1 0 != 0 ||
      (firstThree (md5hex hostname)).getD 2 0 != 0) = true := by
    have he : (firstThree (md5hex hostname)).getD 0 0 =
        (md5hex hostname).getD 0 0 := rfl
    rw [he]
    have hb : ((md5hex hostname).getD 0 0 != 0) = true := by
      simpa [bne_iff_ne] using h0
    rw [hb]
    simp
  have hhit : gen_machine_id md5hex hostname (firstThree (md5hex hostname)) =
      (firstThree (md5hex hostname), firstThree (md5hex hostname)) := by
    unfold gen_machine_id
    rw [if_pos hcond]
  refine ⟨rfl, rfl, by rw [hfresh]; exact hhit, ?_⟩
  intro sec pid start c
  show ((gen_timestamp sec ++
      (gen_machine_id md5hex hostname [0, 0, 0]).1 ++ gen_pid pid ++
      (gen_count start c).1).drop 4).take 3 = firstThree (md5hex hostname)
  rw [hfresh]
  simp [gen_timestamp, be32, gen_pid, le16, firstThree]

set_option maxRecDepth 100000 in
/-- Bitwise-or of a shifted byte with a nibble is addition: `x * 16 % 256`
has a zero low nibble, so or-ing a value below 16 into it adds it. -/
theorem lor_low_nibble :
    ∀ x < 256, ∀ d < 16, x * 16 % 256 ||| d = x * 16 % 256 + d := by
  decide

/-- One decoder step on a `to_hex` output character: a hex-digit byte shifts
the accumulator and ors the digit in, pushing the accumulated byte on every
second digit. -/
theorem from_hex_loop_hexDigit (d : Nat) (hd : d < 16) (rest : List Nat)
    (buf modulus idx : Nat) (acc : List Nat) :
    from_hex_loop (hexDigitByte d :: rest) buf modulus idx acc =
      if modulus + 1 = 2 then
        from_hex_loop rest (buf * 16 % 256 ||| d) 0 (idx + 1)
          ((buf * 16 % 256 ||| d) :: acc)
      else
        from_hex_loop rest (buf * 16 % 256 ||| d) (modulus + 1) (idx + 1)
          acc := by
  interval_cases d <;> simp [from_hex_loop, hexDigitByte]

/-- Decoding the `to_hex` image of a byte list (from a sub-256 accumulator at
an even nibble position) appends those bytes to the output. -/
theorem from_hex_to_hex_aux :
    ∀ (bytes : List Nat) (buf idx : Nat) (acc : List Nat),
      buf < 256 → (∀ b ∈ bytes, b < 256) →
      from_hex_loop (to_hex bytes) buf 0 idx acc = .ok (acc.reverse ++ bytes) := by
  intro bytes
  induction bytes with
  | nil =>
    intro buf idx acc _ _
    simp [to_hex, from_hex_loop]
  | cons b bs ih =>
    intro buf idx acc hbuf hmem
    have hb : b < 256 := hmem b (List.mem_cons_self b bs)
    have hbs : ∀ x ∈ bs, x < 256 := fun x hx => hmem x (List.mem_cons_of_mem b hx)
    have hto : to_hex (b :: bs) =
        hexDigitByte (b % 256 / 16) :: hexDigitByte (b % 16) :: to_hex bs := by
      simp [to_hex]
    rw [hto, from_hex_loop_hexDigit (b % 256 / 16) (by omega),
      if_neg (by omega : ¬(0 + 1 = 2))]
    have h1 : buf * 16 % 256 ||| b % 256 / 16 = buf * 16 % 256 + b / 16 := by
      rw [Nat.mod_eq_of_lt hb]
      exact lor_low_nibble buf hbuf (b / 16) (by omega)
    rw [h1, from_hex_loop_hexDigit (b % 16) (by omega),
      if_pos (by omega : 1 + 1 = 2)]
    have h2 : buf * 16 % 256 + b / 16 < 256 := by omega
    rw [lor_low_nibble (buf * 16 % 256 + b / 16) h2 (b % 16) (by omega)]
    have h3 : (buf * 16 % 256 + b / 16) * 16 % 256 + b % 16 = b := by omega
    rw [h3, ih b (idx + 1 + 1) (b :: acc) hb hbs]
    simp

/-- C7: hex round-trip — for every 12-byte ObjectId, `with_string` applied to
its 24-character lowercase hexadecimal encoding returns exactly that ObjectId;
and whenever the hexadecimal decode of a string yields a byte sequence whose
length is not 12, `with_string` returns the `ArgumentError` and no
ObjectId. -/
theorem with_string_hex_roundtrip :
    (∀ oid : List Nat, oid.length = 12 → (∀ b ∈ oid, b < 256) →
      with_string (to_hex oid) = .ok oid) ∧
    (∀ s l : List Nat, from_hex s = .ok l → l.length ≠ 12 →
      with_string s = .error (.ArgumentError
        "Provided string must be a 12-byte hexadecimal string.")) := by
  constructor
  · intro oid hlen hmem
    have h : from_hex (to_hex oid) = .ok oid := by
      have := from_hex_to_hex_aux oid 0 0 [] (by omega) hmem
      simpa [from_hex] using this
    simp [with_string, h, hlen]
  · intro s l h hne
    simp [with_string, h, hne]

/-- C7 witness: `with_string_hex_roundtrip` applied to the ObjectId with
bytes `0..11`, and to the string `"00"` (bytes `[48, 48]`), whose decode has
length 1. -/
theorem with_string_hex_roundtrip_witness :
    (List.range 12).length = 12 ∧ (∀ b ∈ List.range 12, b < 256) ∧
    with_string (to_hex (List.range 12)) = .ok (List.range 12) ∧
    from_hex [48, 48] = .ok [0] ∧ ([0] : List Nat).length ≠ 12 ∧
    with_string [48, 48] = .error (.ArgumentError
      "Provided string must be a 12-byte hexadecimal string.") :=
  ⟨by decide, by decide,
    with_string_hex_roundtrip.1 (List.range 12) (by decide) (by decide),
    rfl, by decide,
    with_string_hex_roundtrip.2 [48, 48] [0] rfl (by decide)⟩

/-- C4 witness: `machine_id_md5_cached` instantiated with the stand-in digest
(32 `a` bytes) and hostname `localhost`. -/
theorem machine_id_md5_cached_witness :
    3 ≤ (md5hex_stub "localhost").length ∧
    (∀ b ∈ md5hex_stub "localhost", b ≠ 0) ∧
    ((gen_machine_id md5hex_stub "localhost" [0, 0, 0]).1 =
        firstThree (md5hex_stub "localhost") ∧
      (gen_machine_id md5hex_stub "localhost" [0, 0, 0]).2 =
        firstThree (md5hex_stub "localhost") ∧
      gen_machine_id md5hex_stub "localhost"
          (gen_machine_id md5hex_stub "localhost" [0, 0, 0]).2 =
        ((gen_machine_id md5hex_stub "localhost" [0, 0, 0]).1,
          (gen_machine_id md5hex_stub "localhost" [0, 0, 0]).2) ∧
      (∀ sec pid start c : Nat,
        ((generate md5hex_stub sec "localhost" pid start
            ⟨c, [0, 0, 0]⟩).1.drop 4).take 3 =
          firstThree (md5hex_stub "localhost"))) :=
  ⟨by decide, by decide,
    machine_id_md5_cached md5hex_stub "localhost" (by decide) (by decide)⟩

/-- C5 (counterexample): the claim that `WriteConcern::to_bson` produces
entries for all four fields fails on the code — already for the default
`WriteConcern`, the produced document has no `fsync` entry. -/
theorem to_bson_omits_fsync :
    (WriteConcern.to_bson WriteConcern.new).get "fsync" = none := by
  rfl

/-- C5 (amended): for every `WriteConcern`, the `writeConcern` document
produced by `to_bson` contains entries for `w`, `wtimeout` and `j`, each
equal to the corresponding field, and no `fsync` entry (the `fsync` field is
not serialised); the default-constructed `WriteConcern` has `w = 1`,
`wtimeout = 0`, `j = false`, `fsync = false`. -/
theorem to_bson_fields (wc : WriteConcern) :
    (wc.to_bson.get "w" = some (.I32 wc.w)) ∧
    (wc.to_bson.get "wtimeout" = some (.I32 wc.w_timeout)) ∧
    (wc.to_bson.get "j" = some (.Boolean wc.j)) ∧
    (wc.to_bson.get "fsync" = none) ∧
    WriteConcern.new = { w := 1, w_timeout := 0, j := false, fsync := false } := by
  exact ⟨rfl, rfl, rfl, rfl, rfl⟩

set_option maxRecDepth 4096 in
/-- C6: `is_network_error` holds exactly for `HostUnreachable`, `HostNotFound`
and `NetworkTimeout`; `is_interruption` exactly for `Interrupted`,
`InterruptedAtShutdown` and `ExceededTimeLimit`; `is_index_creation_error`
exactly for `CannotCreateIndex`, `IndexOptionsConflict`,
`IndexKeySpecsConflict` and `IndexAlreadyExists`; and those variants carry
the numeric discriminants 6, 7, 89, 11601, 11600, 50, 67, 85, 86 and 68,
with `NotMaster = 10107`, `NotMasterNoSlaveOkCode = 13435`,
`NotMasterOrSecondaryCode = 13436` and `DuplicateKey = 11000`. -/
theorem errorCode_predicates :
    (∀ c : ErrorCode, c.is_network_error = true ↔
      c = ErrorCode.HostUnreachable ∨ c = ErrorCode.HostNotFound ∨
      c = ErrorCode.NetworkTimeout) ∧
    (∀ c : ErrorCode, c.is_interruption = true ↔
      c = ErrorCode.Interrupted ∨ c = ErrorCode.InterruptedAtShutdown ∨
      c = ErrorCode.ExceededTimeLimit) ∧
    (∀ c : ErrorCode, c.is_index_creation_error = true ↔
      c = ErrorCode.CannotCreateIndex ∨ c = ErrorCode.IndexOptionsConflict ∨
      c = ErrorCode.IndexKeySpecsConflict ∨ c = ErrorCode.IndexAlreadyExists) ∧
    ErrorCode.code .HostUnreachable = 6 ∧
    ErrorCode.code .HostNotFound = 7 ∧
    ErrorCode.code .NetworkTimeout = 89 ∧
    ErrorCode.code .Interrupted = 11601 ∧
    ErrorCode.code .InterruptedAtShutdown = 11600 ∧
    ErrorCode.code .ExceededTimeLimit = 50 ∧
    ErrorCode.code .CannotCreateIndex = 67 ∧
    ErrorCode.code .IndexOptionsConflict = 85 ∧
    ErrorCode.code .IndexKeySpecsConflict = 86 ∧
    ErrorCode.code .IndexAlreadyExists = 68 ∧
    ErrorCode.code .NotMaster = 10107 ∧
    ErrorCode.code .NotMasterNoSlaveOkCode = 13435 ∧
    ErrorCode.code .NotMasterOrSecondaryCode = 13436 ∧
    ErrorCode.code .DuplicateKey = 11000 := by
  refine ⟨by decide, by decide, by decide,
    rfl, rfl, rfl, rfl, rfl, rfl, rfl, rfl, rfl, rfl, rfl, rfl, rfl, rfl⟩

/-- C8: `Database::create_collection` is unimplemented — for every collection
name it panics, never returns a `Result`, and sends no command document (in
particular no `createCollection` command), in contrast to the other database
methods, which hand exactly one command document to the server. -/
theorem create_collection_unimplemented (name : String) :
    (Database.create_collection name).1 = DbOutcome.panicked ∧
    (∀ r : Except Error Unit,
      (Database.create_collection name).1 ≠ DbOutcome.returned r) ∧
    (Database.create_collection name).2 = [] ∧
    (∀ doc ∈ (Database.create_collection name).2,
      doc.get "createCollection" = none) := by
  refine ⟨rfl, fun r h => ?_, rfl, fun doc h => ?_⟩
  · exact DbOutcome.noConfusion h
  · exact absurd h (List.not_mem_nil doc)

/-- C9: for every batch size `b` and optional filter `f`, the command
document issued by `list_collections_with_batch_size` maps `listCollections`
to `1` and `cursor` to a subdocument with `batchSize = b`, contains a
`filter` entry equal to `f` exactly when `f` is supplied, and
`list_collections` delegates with the default batch size. -/
theorem list_collections_spec_fields (batch_size : Int)
    (filter : Option BsonDocument) :
    (Database.list_collections_with_batch_size filter batch_size).get
        "listCollections" = some (.I32 1) ∧
    (Database.list_collections_with_batch_size filter batch_size).get
        "cursor" = some (.Doc [("batchSize", .I32 batch_size)]) ∧
    (∀ f, filter = some f →
      (Database.list_collections_with_batch_size filter batch_size).get
        "filter" = some (.Doc f)) ∧
    (filter = none →
      (Database.list_collections_with_batch_size filter batch_size).get
        "filter" = none) ∧
    (∀ DEFAULT_BATCH_SIZE : Int,
      Database.list_collections DEFAULT_BATCH_SIZE filter =
        Database.list_collections_with_batch_size filter DEFAULT_BATCH_SIZE) := by
  cases filter with
  | none =>
    exact ⟨rfl, rfl, fun f h => Option.noConfusion h, fun _ => rfl, fun _ => rfl⟩
  | some f0 =>
    refine ⟨rfl, rfl, fun f h => ?_, fun h => Option.noConfusion h, fun _ => rfl⟩
    cases h
    rfl

/-- C9 witness: the filter clauses of `list_collections_spec_fields` at batch
size 7, once with an empty filter document supplied and once with no
filter. -/
theorem list_collections_spec_fields_witness :
    (Database.list_collections_with_batch_size (some BsonDocument.new) 7).get
        "filter" = some (.Doc BsonDocument.new) ∧
    (Database.list_collections_with_batch_size none 7).get "filter" = none :=
  ⟨(list_collections_spec_fields 7 (some BsonDocument.new)).2.2.1
      BsonDocument.new rfl,
   (list_collections_spec_fields 7 none).2.2.2.1 rfl⟩

/-- C10: `collection_names` returns exactly the string `name` fields of the
documents the `listCollections` cursor yields, in order, omitting documents
whose `name` is missing or not a string; an iteration error is returned
unchanged as the first error. -/
theorem collection_names_extracts_names :
    (∀ docs : List BsonDocument,
      Database.collection_names (docs.map Except.ok) =
        .ok (docs.filterMap nameField)) ∧
    (∀ (pre : List BsonDocument) (err : Error)
        (rest : List (Except Error BsonDocument)),
      Database.collection_names
          (pre.map Except.ok ++ Except.error err :: rest) = .error err) := by
  constructor
  · intro docs
    induction docs with
    | nil => rfl
    | cons d ds ih =>
      cases hn : d.get "name" with
      | none => simp [Database.collection_names, nameField, hn, ih]
      | some v =>
        cases v with
        | I32 v => simp [Database.collection_names, nameField, hn, ih]
        | Boolean b => simp [Database.collection_names, nameField, hn, ih]
        | Str s => simp [Database.collection_names, nameField, hn, ih]
        | Doc dd => simp [Database.collection_names, nameField, hn, ih]
  · intro pre err rest
    induction pre with
    | nil => rfl
    | cons d ds ih =>
      cases hn : d.get "name" with
      | none => simpa [Database.collection_names, hn] using ih
      | some v =>
        cases v with
        | I32 v => simpa [Database.collection_names, hn] using ih
        | Boolean b => simpa [Database.collection_names, hn] using ih
        | Str s => simp [Database.collection_names, hn, ih]
        | Doc dd => simpa [Database.collection_names, hn] using ih

end Mongo
